import Mathlib

/-!
Verification of the dreon-auth authorization core (relation-tuple engine and
role/permission aggregator) against its natural-language specification.

The Go source is shallowly embedded: the relational store backing
`relationTupleRepository` is a list of rows in primary-key order (gorm's
`First` returns the first row in that order), machine time is an explicit
`now : Nat` parameter, and the cache substrate is an injected interface as
described by the spec (the cache package itself ships outside the verified
tree, so it is modelled from the spec contract: Get with a distinguishable
miss signal, Set with TTL, Delete).
-/

namespace DreonAuth

/-! ## Error codes, from internal/errorx/code.go and internal/errorx (AppError) -/

/-- Error codes of the service layer (internal/errorx/code.go). Only the codes
reachable from the embedded operations are carried over. -/
inductive AppErrCode where
  | errInternal
  | errNotFound
  | errConflict
  | errUserNotFound
  | errPermissionNotFound
  | errPermissionConflict
  | errInvalidPermission
  | errGrantPermission
  | errRevokePermission
  | errRoleNotFound
  | errRoleConflict
  | errCreateRole
  | errUpdateRole
  | errDeleteRole
  | errSystemRoleProtected
  | errRoleAssignment
deriving DecidableEq, Repr

/-- Canonical messages from the errorMsgs table (internal/errorx/code.go). -/
def getErrorMessage : AppErrCode → String
  | .errInternal => "Internal server error"
  | .errNotFound => "Resource not found"
  | .errConflict => "Resource conflict"
  | .errUserNotFound => "User not found"
  | .errPermissionNotFound => "Permission not found"
  | .errPermissionConflict => "Permission already exists"
  | .errInvalidPermission => "Invalid permission"
  | .errGrantPermission => "Failed to grant permission"
  | .errRevokePermission => "Failed to revoke permission"
  | .errRoleNotFound => "Role not found"
  | .errRoleConflict => "Role with this code already exists"
  | .errCreateRole => "Failed to create role"
  | .errUpdateRole => "Failed to update role"
  | .errDeleteRole => "Failed to delete role"
  | .errSystemRoleProtected => "System roles can only be modified by super admins"
  | .errRoleAssignment => "Failed to assign or remove role"

/-- AppError (internal/errorx): a code together with its message. The wrapped
underlying error of the Go struct is dropped; only Code and Message are
observable through GetCode / Error(). -/
structure AppError where
  code : AppErrCode
  msg  : String
deriving DecidableEq, Repr

/-- errorx.Wrap: the message is the canonical one for the code. -/
def errWrap (c : AppErrCode) : AppError := { code := c, msg := getErrorMessage c }

/-- errorx.New: a custom message. -/
def errNew (c : AppErrCode) (m : String) : AppError := { code := c, msg := m }

/-- The error code of a service result, when the result is an error
(errorx.GetCode applied to the returned error). -/
def resultCode {α : Type} : Except AppError α → Option AppErrCode
  | .error e => some e.code
  | .ok _ => none

/-! ## Relation tuple model, from internal/model/relation_tuple.go

The Go field `Namespace` is rendered `nspace` (`namespace` is a Lean keyword);
`ExpiresAt *time.Time` becomes `Option Nat` over an abstract clock, and
`time.Now()` an explicit `now : Nat`. BaseModel metadata (id, timestamps) is
not observable by any verified operation and is omitted. -/

structure RelationTuple where
  nspace           : String
  objectId         : String
  relation         : String
  subjectNamespace : String
  subjectObjectId  : String
  subjectRelation  : String
  isActive         : Bool
  expiresAt        : Option Nat
deriving DecidableEq, Repr

/-- RelationTuple.Object: namespace plus colon plus object id. -/
def RelationTuple.object (rt : RelationTuple) : String :=
  rt.nspace ++ ":" ++ rt.objectId

/-- RelationTuple.Subject: subject id, with the userset relation suffixed
after a hash when present. -/
def RelationTuple.subject (rt : RelationTuple) : String :=
  let s := rt.subjectNamespace ++ ":" ++ rt.subjectObjectId
  if rt.subjectRelation ≠ "" then s ++ "#" ++ rt.subjectRelation else s

/-- RelationTuple.String: canonical tuple representation
object hash relation at subject. -/
def RelationTuple.render (rt : RelationTuple) : String :=
  rt.object ++ "#" ++ rt.relation ++ "@" ++ rt.subject

/-- RelationTuple.IsExpired: time.Now().After(expiresAt), i.e. strictly past. -/
def RelationTuple.isExpired (rt : RelationTuple) (now : Nat) : Bool :=
  match rt.expiresAt with
  | none => false
  | some e => decide (e < now)

/-- RelationTuple.IsValid: active and not expired. -/
def RelationTuple.isValid (rt : RelationTuple) (now : Nat) : Bool :=
  rt.isActive && !(rt.isExpired now)

/-! ## Relation DTOs, from internal/dto (relation request/response types) -/

structure GrantRelationReq where
  nspace           : String
  objectId         : String
  relation         : String
  subjectNamespace : String
  subjectObjectId  : String
  subjectRelation  : String
  expiresAt        : Option Nat
deriving DecidableEq, Repr

structure RevokeRelationReq where
  nspace           : String
  objectId         : String
  relation         : String
  subjectNamespace : String
  subjectObjectId  : String
  subjectRelation  : String
deriving DecidableEq, Repr

structure CheckRelationReq where
  nspace           : String
  objectId         : String
  relation         : String
  subjectNamespace : String
  subjectObjectId  : String
deriving DecidableEq, Repr

structure CheckRelationResp where
  allowed : Bool
  reason  : String
deriving DecidableEq, Repr

/-- ListRelationsReq: the five optional filter fields plus embedded
pagination. The request type has no subjectRelation filter field. -/
structure ListRelationsReq where
  nspace           : String
  objectId         : String
  relation         : String
  subjectNamespace : String
  subjectObjectId  : String
  page             : Int
  pageSize         : Int
deriving DecidableEq, Repr

/-- PaginationResp, specialized to relation tuples. -/
structure PaginationResp where
  items    : List RelationTuple
  total    : Int
  page     : Int
  pageSize : Int
  hasNext  : Bool
deriving DecidableEq, Repr

/-! ## Relation tuple repository, from internal/repository/relation_tuple.go

The backing table is a `List RelationTuple` in primary-key order; gorm's
`First` is the first row of that list, `Delete` with a WHERE clause removes
every matching row, a SQL NULL subject_relation is the empty string. -/

/-- The subject_relation clause shared by FindByTuple and DeleteByTuple:
a nonempty argument matches exactly, an empty argument matches NULL or
empty-string rows. -/
def matchesSubjectRelation (sr rowSr : String) : Bool :=
  if sr ≠ "" then rowSr = sr else rowSr = ""

/-- A row matches the six-column natural key of FindByTuple / DeleteByTuple. -/
def matchesTupleKey (ns oid rel sns soid sr : String) (t : RelationTuple) : Bool :=
  t.nspace = ns && t.objectId = oid && t.relation = rel &&
  t.subjectNamespace = sns && t.subjectObjectId = soid &&
  matchesSubjectRelation sr t.subjectRelation

/-- relationTupleRepository.FindByTuple: First on the natural-key WHERE
clause; nil (here none) when no row matches. -/
def dbFindByTuple (db : List RelationTuple) (ns oid rel sns soid sr : String) :
    Option RelationTuple :=
  db.find? (matchesTupleKey ns oid rel sns soid sr)

/-- The WHERE clause of CheckPermission: five key columns, is_active, and
expires_at IS NULL OR expires_at strictly after now. -/
def validCheckMatch (now : Nat) (ns oid rel sns soid : String) (t : RelationTuple) : Bool :=
  t.nspace = ns && t.objectId = oid && t.relation = rel &&
  t.subjectNamespace = sns && t.subjectObjectId = soid &&
  t.isActive &&
  (match t.expiresAt with
   | none => true
   | some e => decide (now < e))

/-- relationTupleRepository.CheckPermission: the count of matching valid rows
is positive. -/
def dbCheckPermission (db : List RelationTuple) (now : Nat)
    (ns oid rel sns soid : String) : Bool :=
  db.any (validCheckMatch now ns oid rel sns soid)

/-- relationTupleRepository.DeleteByTuple: removes every row matching the
natural key. -/
def dbDeleteByTuple (db : List RelationTuple) (ns oid rel sns soid sr : String) :
    List RelationTuple :=
  db.filter (fun t => !(matchesTupleKey ns oid rel sns soid sr t))

/-- One dynamic-filter clause of ListWithFilters: an equality constraint on
the named column; the repository skips empty values, and the service only
ever passes the five columns below. -/
def filterClause (col v : String) (t : RelationTuple) : Bool :=
  if v = "" then true
  else if col = "namespace" then t.nspace = v
  else if col = "object_id" then t.objectId = v
  else if col = "relation" then t.relation = v
  else if col = "subject_namespace" then t.subjectNamespace = v
  else if col = "subject_object_id" then t.subjectObjectId = v
  else true

/-- A row satisfies every dynamic filter. -/
def matchesFilters (filters : List (String × String)) (t : RelationTuple) : Bool :=
  filters.all (fun f => filterClause f.1 f.2 t)

/-- relationTupleRepository.ListWithFilters: Count before Limit/Offset, so
the total is the full filtered count. -/
def dbListWithFilters (db : List RelationTuple) (filters : List (String × String))
    (limit offset : Int) : List RelationTuple × Int :=
  let rows := db.filter (matchesFilters filters)
  (((rows.drop offset.toNat).take limit.toNat), (rows.length : Int))

/-- IRelationTupleRepository, the repository interface injected into the
relation service, over an abstract store type and an abstract store-level
error (the gorm `error` return). `now` is threaded explicitly where the Go
implementation reads the clock itself. -/
structure ITupleRepo (σ : Type) where
  findByTuple : σ → String → String → String → String → String → String →
    Except String (Option RelationTuple)
  create : σ → RelationTuple → Except String (RelationTuple × σ)
  deleteByTuple : σ → String → String → String → String → String → String →
    Except String σ
  checkPermission : σ → Nat → String → String → String → String → String →
    Except String Bool
  listWithFilters : σ → List (String × String) → Int → Int →
    Except String (List RelationTuple × Int)

/-- The shipped repository over the list-backed store. Create appends a row
(Modelled from the spec for the generic persistence `create` operation; the
shared Repository base is outside the verified tree). The store-level
operations themselves never fail. -/
def dbTupleRepo : ITupleRepo (List RelationTuple) where
  findByTuple := fun db ns oid rel sns soid sr =>
    .ok (dbFindByTuple db ns oid rel sns soid sr)
  create := fun db t => .ok (t, db ++ [t])
  deleteByTuple := fun db ns oid rel sns soid sr =>
    .ok (dbDeleteByTuple db ns oid rel sns soid sr)
  checkPermission := fun db now ns oid rel sns soid =>
    .ok (dbCheckPermission db now ns oid rel sns soid)
  listWithFilters := fun db filters limit offset =>
    .ok (dbListWithFilters db filters limit offset)

/-! ## Cache substrate

Modelled from the spec: the cache package is outside the verified tree; §6
gives its contract — Get yields the stored value or a distinguishable
not-found signal (ErrCacheNil), Set stores a value under a TTL, Delete
removes a key. -/

/-- A cache round-trip error: the distinguishable miss, or an I/O failure. -/
inductive CacheErr where
  | cacheNil
  | ioFailure
deriving DecidableEq, Repr

/-- The injected cache interface over an abstract cache-state type, for
values of type V (the Go interface is type-erased; each service stores one
value type). TTLs are abstract durations in seconds. -/
structure ICache (V : Type) (κ : Type) where
  get : κ → String → Except CacheErr V
  set : κ → String → V → Nat → Except CacheErr κ
  delete : κ → String → κ

/-- State of the in-memory model cache: key, value and the TTL it was stored
with. -/
def CacheState (V : Type) : Type := List (String × V × Nat)

/-- The well-behaved cache instance: Get returns the stored value or the
miss signal, Set overwrites, Delete removes. -/
def memCache (V : Type) : ICache V (CacheState V) where
  get := fun st k =>
    match st.find? (fun e => e.1 = k) with
    | some e => .ok e.2.1
    | none => .error .cacheNil
  set := fun st k v ttl => .ok ((k, v, ttl) :: st.filter (fun e => e.1 ≠ k))
  delete := fun st k => st.filter (fun e => e.1 ≠ k)

/-- A cache whose writes fail with an I/O error while reads behave normally;
exercises the store-or-cache-failure paths of the spec. -/
def failSetCache (V : Type) : ICache V (CacheState V) where
  get := fun st k =>
    match st.find? (fun e => e.1 = k) with
    | some e => .ok e.2.1
    | none => .error .cacheNil
  set := fun _ _ _ _ => .error .ioFailure
  delete := fun st k => st.filter (fun e => e.1 ≠ k)

/-! ## Constants, from internal/shared/constant -/

/-- constant.SystemProjectID. -/
def systemProjectID : String := "system"

/-- constant.CacheKeyPrefixRelationTuple. -/
def cacheKeyPrefixRelationTuple : String := "relation_tuples:"

/-- constant.CacheDefaultTTL (one hour), in seconds. -/
def cacheDefaultTTL : Nat := 3600

/-! ## Relation service, from the service layer (RelationSvc) -/

/-- RelationSvc.validateRelationRequest: required fields, and expiresAt (when
set) not strictly before now — `ExpiresAt.Before(time.Now())` is a strict
comparison. Returns the validation message on failure. -/
def validateRelationRequest (now : Nat) (req : GrantRelationReq) : Option String :=
  if req.nspace = "" then some "namespace is required"
  else if req.objectId = "" then some "objectId is required"
  else if req.relation = "" then some "relation is required"
  else if req.subjectNamespace = "" then some "subjectNamespace is required"
  else if req.subjectObjectId = "" then some "subjectObjectId is required"
  else
    match req.expiresAt with
    | some e => if e < now then some "expiresAt must be in the future" else none
    | none => none

/-- The tuple assembled by GrantRelation before Create: request fields with
IsActive set to true. -/
def tupleOfGrantReq (req : GrantRelationReq) : RelationTuple :=
  { nspace := req.nspace
    objectId := req.objectId
    relation := req.relation
    subjectNamespace := req.subjectNamespace
    subjectObjectId := req.subjectObjectId
    subjectRelation := req.subjectRelation
    isActive := true
    expiresAt := req.expiresAt }

/-- RelationSvc.GrantRelation: validate, look up by natural key, conflict
when the found tuple is valid, otherwise insert a new active row and return
the created tuple together with the new store. -/
def grantRelation {σ : Type} (repo : ITupleRepo σ) (now : Nat) (st : σ)
    (req : GrantRelationReq) : Except AppError (RelationTuple × σ) :=
  match validateRelationRequest now req with
  | some _ => .error (errWrap .errInvalidPermission)
  | none =>
    match repo.findByTuple st req.nspace req.objectId req.relation
        req.subjectNamespace req.subjectObjectId req.subjectRelation with
    | .error _ => .error (errWrap .errInternal)
    | .ok existing =>
      if (existing.map (fun ex => ex.isValid now)).getD false then
        .error (errNew .errPermissionConflict "Relation already exists and is active")
      else
        match repo.create st (tupleOfGrantReq req) with
        | .error _ => .error (errWrap .errGrantPermission)
        | .ok (created, st') => .ok (created, st')

/-- RelationSvc.RevokeRelation: look up by natural key, not-found when
absent, otherwise hard-delete by natural key. -/
def revokeRelation {σ : Type} (repo : ITupleRepo σ) (st : σ)
    (req : RevokeRelationReq) : Except AppError σ :=
  match repo.findByTuple st req.nspace req.objectId req.relation
      req.subjectNamespace req.subjectObjectId req.subjectRelation with
  | .error _ => .error (errWrap .errInternal)
  | .ok none => .error (errNew .errPermissionNotFound "Relation not found")
  | .ok (some _) =>
    match repo.deleteByTuple st req.nspace req.objectId req.relation
        req.subjectNamespace req.subjectObjectId req.subjectRelation with
    | .error _ => .error (errWrap .errRevokePermission)
    | .ok st' => .ok st'

/-- RelationSvc.BulkRevokeRelations: revoke each item in order; an individual
not-found is swallowed (the loop continues on the unchanged store), any other
error aborts the batch. -/
def bulkRevokeRelations {σ : Type} (repo : ITupleRepo σ) (st : σ) :
    List RevokeRelationReq → Except AppError σ
  | [] => .ok st
  | req :: rest =>
    match revokeRelation repo st req with
    | .ok st' => bulkRevokeRelations repo st' rest
    | .error e =>
      if e.code ≠ .errPermissionNotFound then .error e
      else bulkRevokeRelations repo st rest

/-- RelationSvc.buildCacheKey: prefix plus the canonical tuple string. -/
def buildCacheKey (t : RelationTuple) : String :=
  cacheKeyPrefixRelationTuple ++ t.render

/-- The cache key CheckRelation derives from a check request: the tuple
string of a zero-valued tuple holding only the five request fields, so the
key never includes a subjectRelation component. -/
def checkCacheKey (req : CheckRelationReq) : String :=
  buildCacheKey
    { nspace := req.nspace
      objectId := req.objectId
      relation := req.relation
      subjectNamespace := req.subjectNamespace
      subjectObjectId := req.subjectObjectId
      subjectRelation := ""
      isActive := false
      expiresAt := none }

/-- RelationSvc.CheckRelation: cache lookup first; a hit is returned as-is, a
cache I/O failure is an internal error, and on the miss signal the decision
is computed from the store and returned. The function body contains no cache
Set call, so the cache state comes back unchanged on every path. -/
def checkRelation {σ κ : Type} (repo : ITupleRepo σ) (c : ICache Bool κ)
    (now : Nat) (st : σ) (cst : κ) (req : CheckRelationReq) :
    Except AppError (CheckRelationResp × κ) :=
  match c.get cst (checkCacheKey req) with
  | .ok allowed => .ok ({ allowed := allowed, reason := "" }, cst)
  | .error .ioFailure => .error (errWrap .errInternal)
  | .error .cacheNil =>
    match repo.checkPermission st now req.nspace req.objectId req.relation
        req.subjectNamespace req.subjectObjectId with
    | .error _ => .error (errWrap .errInternal)
    | .ok allowed =>
      .ok ({ allowed := allowed
             reason := if allowed then "" else "Relation not found or expired" }, cst)

/-- The dynamic filter map ListRelations builds: one equality clause per
nonempty filter field of the request; the request type offers exactly the
five columns below. -/
def buildRelationFilters (req : ListRelationsReq) : List (String × String) :=
  (if req.nspace ≠ "" then [("namespace", req.nspace)] else []) ++
  (if req.objectId ≠ "" then [("object_id", req.objectId)] else []) ++
  (if req.relation ≠ "" then [("relation", req.relation)] else []) ++
  (if req.subjectNamespace ≠ "" then [("subject_namespace", req.subjectNamespace)] else []) ++
  (if req.subjectObjectId ≠ "" then [("subject_object_id", req.subjectObjectId)] else [])

/-- RelationSvc.ListRelations: clamp the page size (default 10 when
non-positive, capped at 100) and the page (floor 1), then run the filtered,
paginated store query. -/
def listRelations {σ : Type} (repo : ITupleRepo σ) (st : σ)
    (req : ListRelationsReq) : Except AppError PaginationResp :=
  let pageSize := if req.pageSize ≤ 0 then 10 else if 100 < req.pageSize then 100 else req.pageSize
  let page := if req.page ≤ 0 then 1 else req.page
  let offset0 := (page - 1) * pageSize
  let offset := if offset0 < 0 then 0 else offset0
  match repo.listWithFilters st (buildRelationFilters req) pageSize offset with
  | .error _ => .error (errWrap .errInternal)
  | .ok (tuples, total) =>
    .ok { items := tuples
          total := total
          page := page
          pageSize := pageSize
          hasNext := decide (offset + pageSize < total) }

/-! ## Role model, from internal/model (Role, UserRole, User)

Role.Permissions is persisted as JSON; PermissionsToJSON / PermissionsFromJSON
round-trip a `[]string`, so the column is embedded directly as `List String`.
Only the User fields the verified operations observe (the id used for
existence checks) are carried. -/

structure User where
  id : String
deriving DecidableEq, Repr

structure Role where
  id          : String
  code        : String
  name        : String
  description : String
  isActive    : Bool
  projectId   : Option String
  permissions : List String
deriving DecidableEq, Repr

/-- The zero value of model.Role: what a non-preloaded gorm association
holds — in particular an empty permission list. -/
def zeroRole : Role :=
  { id := "", code := "", name := "", description := ""
    isActive := false, projectId := none, permissions := [] }

/-- A persisted user_roles row (the columns of model.UserRole). -/
structure UserRoleRow where
  id        : String
  userId    : String
  roleId    : String
  projectId : Option String
deriving DecidableEq, Repr

/-- model.UserRole as materialized in memory: the row plus the Role
association, which gorm populates only under Preload and otherwise leaves at
its zero value. -/
structure UserRole where
  id        : String
  userId    : String
  roleId    : String
  projectId : Option String
  role      : Role
deriving DecidableEq, Repr

/-- The persisted state the role service operates on. -/
structure RoleDB where
  users     : List User
  roles     : List Role
  userRoles : List UserRoleRow
deriving DecidableEq, Repr

/-! ## Role-side repositories

The entity-specific finders below are from internal/repository
(user_role repository); the shared generic operations (find-one-by-id,
update-by-id-with-field-list, delete-by-id, create) live outside the
verified tree and are Modelled from the spec, §6 persistence interface. -/

/-- Modelled from the spec: generic find-one-by-id for roles. -/
def roleFindOneById (db : RoleDB) (id : String) : Option Role :=
  db.roles.find? (fun r => r.id = id)

/-- Modelled from the spec: generic find-one-by-id for users. -/
def userFindOneById (db : RoleDB) (id : String) : Option User :=
  db.users.find? (fun u => u.id = id)

/-- Modelled from the spec: update-by-id-with-field-list — copy the listed
columns of the supplied record onto the stored row with that id
(`updated_at` is bookkeeping outside the model). -/
def applyFieldList (fields : List String) (src dst : Role) : Role :=
  { dst with
    name := if fields.contains "name" then src.name else dst.name
    description := if fields.contains "description" then src.description else dst.description
    permissions := if fields.contains "permissions" then src.permissions else dst.permissions
    isActive := if fields.contains "is_active" then src.isActive else dst.isActive }

/-- Modelled from the spec: generic update-by-id for roles. -/
def roleUpdate (db : RoleDB) (id : String) (src : Role) (fields : List String) : RoleDB :=
  { db with roles := db.roles.map (fun r => if r.id = id then applyFieldList fields src r else r) }

/-- Modelled from the spec: generic delete-by-id for roles. -/
def roleDeleteById (db : RoleDB) (id : String) : RoleDB :=
  { db with roles := db.roles.filter (fun r => !(r.id = id)) }

/-- Modelled from the spec: generic create for user-role assignments
(appends the row; generated ids are outside the model). -/
def userRoleCreate (db : RoleDB) (row : UserRoleRow) : UserRoleRow × RoleDB :=
  (row, { db with userRoles := db.userRoles ++ [row] })

/-- userRoleRepository.FindByUserID: every assignment row of the user. The
query carries no Preload, so the Role association of each returned record is
the gorm zero value. -/
def findByUserID (db : RoleDB) (userID : String) : List UserRole :=
  (db.userRoles.filter (fun r => r.userId = userID)).map
    (fun r => { id := r.id, userId := r.userId, roleId := r.roleId
                projectId := r.projectId, role := zeroRole })

/-- userRoleRepository.FindByUserIDAndRoleID: the single assignment for
user, role and scope; a nil scope matches project_id IS NULL. -/
def findByUserIDAndRoleID (db : RoleDB) (userID roleID : String)
    (projectID : Option String) : Option UserRoleRow :=
  db.userRoles.find? (fun r =>
    r.userId = userID && r.roleId = roleID && r.projectId = projectID)

/-- userRoleRepository.DeleteByUserIDAndRoleID. -/
def deleteByUserIDAndRoleID (db : RoleDB) (userID roleID : String)
    (projectID : Option String) : RoleDB :=
  { db with userRoles := db.userRoles.filter (fun r =>
      !(r.userId = userID && r.roleId = roleID && r.projectId = projectID)) }

/-! ## Role service, from the service layer (RoleSvc) plus the permission
registry (ValidateCodes) -/

/-- Registry.ValidateCodes over the loaded catalog of known codes: empty
codes are skipped, an unknown code yields the offending message. A `none`
registry is the nil-receiver or nil-field case, which validates nothing. -/
def registryValidateCodes (registry : Option (List String)) (codes : List String) :
    Option String :=
  match registry with
  | none => none
  | some known =>
    codes.findSome? (fun c =>
      if c = "" then none
      else if known.contains c then none
      else some ("invalid permission code: " ++ c))

structure UpdateRoleReq where
  name        : String
  description : String
  permissions : List String
  isActive    : Option Bool
deriving DecidableEq, Repr

structure AssignRoleToUserReq where
  userId    : String
  roleId    : String
  projectId : Option String
deriving DecidableEq, Repr

structure RemoveRoleFromUserReq where
  userId    : String
  roleId    : String
  projectId : Option String
deriving DecidableEq, Repr

/-- UpdateRoleReq.ApplyTo: overwrite name, description and permissions, and
is_active only when the request carries it. -/
def applyTo (req : UpdateRoleReq) (m : Role) : Role :=
  { m with
    name := req.name
    description := req.description
    permissions := req.permissions
    isActive := match req.isActive with | some b => b | none => m.isActive }

/-- RoleSvc.UpdateRole: existence check, system-role guard keyed off the
stored role's scope, registry validation, column-list update, then re-read.
Returns the re-read role (possibly none, as the Go code tolerates) and the
new store. -/
def updateRole (registry : Option (List String)) (db : RoleDB) (roleID : String)
    (req : UpdateRoleReq) (isSuperAdmin : Bool) :
    Except AppError (Option Role × RoleDB) :=
  match roleFindOneById db roleID with
  | none => .error (errNew .errRoleNotFound "Role not found")
  | some role =>
    if role.projectId = some systemProjectID ∧ isSuperAdmin = false then
      .error (errNew .errSystemRoleProtected "Only super admins can update system roles")
    else
      match registryValidateCodes registry req.permissions with
      | some m => .error (errNew .errInvalidPermission m)
      | none =>
        let updateFields :=
          ["name", "description", "permissions", "updated_at"] ++
          (match req.isActive with | some _ => ["is_active"] | none => [])
        let role' := applyTo req role
        let db' := roleUpdate db roleID role' updateFields
        .ok (roleFindOneById db' roleID, db')

/-- RoleSvc.DeleteRole: existence check, system-role guard keyed off the
stored role's scope, then delete-by-id. -/
def deleteRole (db : RoleDB) (roleID : String) (isSuperAdmin : Bool) :
    Except AppError RoleDB :=
  match roleFindOneById db roleID with
  | none => .error (errNew .errRoleNotFound "Role not found")
  | some role =>
    if role.projectId = some systemProjectID ∧ isSuperAdmin = false then
      .error (errNew .errSystemRoleProtected "Only super admins can delete system roles")
    else
      .ok (roleDeleteById db roleID)

/-- RoleSvc.AssignRoleToUser: user existence, role existence, system-role
guard keyed off the stored role's scope, duplicate-assignment conflict, then
create. The detached permission-cache invalidation goroutine is outside the
sequential model. -/
def assignRoleToUser (db : RoleDB) (req : AssignRoleToUserReq) (isSuperAdmin : Bool) :
    Except AppError (UserRoleRow × RoleDB) :=
  match userFindOneById db req.userId with
  | none => .error (errNew .errUserNotFound "User not found")
  | some _ =>
    match roleFindOneById db req.roleId with
    | none => .error (errNew .errRoleNotFound "Role not found")
    | some role =>
      if role.projectId = some systemProjectID ∧ isSuperAdmin = false then
        .error (errNew .errSystemRoleProtected "Only super admins can assign system roles")
      else
        match findByUserIDAndRoleID db req.userId req.roleId req.projectId with
        | some _ => .error (errNew .errConflict "User already has this role")
        | none =>
          let row : UserRoleRow :=
            { id := "", userId := req.userId, roleId := req.roleId
              projectId := req.projectId }
          .ok (userRoleCreate db row)

/-- RoleSvc.RemoveRoleFromUser: role existence, system-role guard keyed off
the stored role's scope, assignment existence, then delete. -/
def removeRoleFromUser (db : RoleDB) (req : RemoveRoleFromUserReq) (isSuperAdmin : Bool) :
    Except AppError RoleDB :=
  match roleFindOneById db req.roleId with
  | none => .error (errNew .errRoleNotFound "Role not found")
  | some role =>
    if role.projectId = some systemProjectID ∧ isSuperAdmin = false then
      .error (errNew .errSystemRoleProtected "Only super admins can remove system roles")
    else
      match findByUserIDAndRoleID db req.userId req.roleId req.projectId with
      | none => .error (errNew .errNotFound "User role assignment not found")
      | some _ =>
        .ok (deleteByUserIDAndRoleID db req.userId req.roleId req.projectId)

/-- dto.UserPermissions: the flattened permission map, as an association
list keyed by scope-slash-code with boolean-true values. -/
abbrev UserPermissions : Type := List (String × Bool)

/-- Go map assignment permissions[key] = true; the value is always true, so
a present key is left in place. -/
def setPermission (m : UserPermissions) (k : String) : UserPermissions :=
  if (List.find? (fun e => e.1 = k) m).isSome then m else m ++ [(k, true)]

/-- RoleSvc.buildPermissionKey: the assignment's project scope (the system
sentinel when unscoped), a slash, and the permission code. -/
def buildPermissionKey (permissionCode : String) (projectID : Option String) : String :=
  (match projectID with | some p => p | none => systemProjectID) ++ "/" ++ permissionCode

/-- The permission map computed from the loaded assignments: the union over
all assignments of the association's permission codes under their scoped
keys. -/
def collectPermissions (userRoles : List UserRole) : UserPermissions :=
  userRoles.foldl
    (fun m ur => ur.role.permissions.foldl
      (fun m code => setPermission m (buildPermissionKey code ur.projectId)) m)
    []

/-- RoleSvc.userPermissionsCacheKey. -/
def userPermissionsCacheKey (userID : String) : String :=
  "user_permissions:" ++ userID

/-- RoleSvc.GetUserPermissions: cache-first; on the miss signal, load the
assignments, build the permission map, store it with the default TTL, and
return it. Mirrors the Go multiple-return (value, error) with the resulting
cache state: every error path returns the empty map and the untouched
cache. -/
def getUserPermissions {κ : Type} (c : ICache UserPermissions κ) (db : RoleDB)
    (cst : κ) (userID : String) : UserPermissions × Option AppError × κ :=
  let cacheKey := userPermissionsCacheKey userID
  match c.get cst cacheKey with
  | .ok permissions => (permissions, none, cst)
  | .error .ioFailure => ([], some (errWrap .errInternal), cst)
  | .error .cacheNil =>
    let userRoles := findByUserID db userID
    let permissions := collectPermissions userRoles
    match c.set cst cacheKey permissions cacheDefaultTTL with
    | .error _ => ([], some (errWrap .errInternal), cst)
    | .ok cst' => (permissions, none, cst')

/-! ## Spec-side comparison definitions for the List contract

These follow the spec wording for the amended List claim; the theorems relate
them to the map-based filter pipeline the code builds. -/

/-- A tuple satisfies a list request's filters: an empty filter field is no
constraint, a nonempty one an equality constraint, over the five filterable
columns. -/
def matchesListReq (req : ListRelationsReq) (t : RelationTuple) : Bool :=
  (req.nspace = "" || t.nspace = req.nspace) &&
  (req.objectId = "" || t.objectId = req.objectId) &&
  (req.relation = "" || t.relation = req.relation) &&
  (req.subjectNamespace = "" || t.subjectNamespace = req.subjectNamespace) &&
  (req.subjectObjectId = "" || t.subjectObjectId = req.subjectObjectId)

/-- The effective page size: default 10 when non-positive, capped at 100. -/
def clampedPageSize (req : ListRelationsReq) : Int :=
  if req.pageSize ≤ 0 then 10 else if 100 < req.pageSize then 100 else req.pageSize

/-- The effective page: floored at 1. -/
def clampedPage (req : ListRelationsReq) : Int :=
  if req.page ≤ 0 then 1 else req.page

/-! ## Concrete fixtures used by the claim counterexamples and witnesses -/

/-- A direct active grant of viewer on document:readme to user:alice. -/
def tupleAlice : RelationTuple :=
  { nspace := "document", objectId := "readme", relation := "viewer"
    subjectNamespace := "user", subjectObjectId := "alice"
    subjectRelation := "", isActive := true, expiresAt := none }

/-- An active viewer grant on document:readme to the team object team:eng
itself (no userset relation). -/
def tupleTeamPlain : RelationTuple :=
  { nspace := "document", objectId := "readme", relation := "viewer"
    subjectNamespace := "team", subjectObjectId := "eng"
    subjectRelation := "", isActive := true, expiresAt := none }

/-- An active viewer grant on document:readme to the userset
team:eng#member. -/
def tupleTeamMember : RelationTuple :=
  { nspace := "document", objectId := "readme", relation := "viewer"
    subjectNamespace := "team", subjectObjectId := "eng"
    subjectRelation := "member", isActive := true, expiresAt := none }

/-- A viewer grant to user:alice that expired at time 5. -/
def tupleAliceExpired : RelationTuple :=
  { tupleAlice with expiresAt := some 5 }

/-- An inactive viewer grant to user:alice. -/
def tupleAliceInactive : RelationTuple :=
  { tupleAlice with isActive := false }

/-- The grant request for viewer on document:readme to user:alice. -/
def grantReqAlice : GrantRelationReq :=
  { nspace := "document", objectId := "readme", relation := "viewer"
    subjectNamespace := "user", subjectObjectId := "alice"
    subjectRelation := "", expiresAt := none }

/-- The revoke request for the natural key of `tupleAlice`. -/
def revokeReqAlice : RevokeRelationReq :=
  { nspace := "document", objectId := "readme", relation := "viewer"
    subjectNamespace := "user", subjectObjectId := "alice"
    subjectRelation := "" }

/-- The revoke request for the userset tuple `tupleTeamMember`. -/
def revokeReqTeamMember : RevokeRelationReq :=
  { nspace := "document", objectId := "readme", relation := "viewer"
    subjectNamespace := "team", subjectObjectId := "eng"
    subjectRelation := "member" }

/-- The check request for the 5-tuple of `tupleAlice`. -/
def checkReqAlice : CheckRelationReq :=
  { nspace := "document", objectId := "readme", relation := "viewer"
    subjectNamespace := "user", subjectObjectId := "alice" }

/-- The check request for the 5-tuple shared by `tupleTeamPlain` and
`tupleTeamMember`. -/
def checkReqTeam : CheckRelationReq :=
  { nspace := "document", objectId := "readme", relation := "viewer"
    subjectNamespace := "team", subjectObjectId := "eng" }

/-- A list request with every filter field set. -/
def listReqFull : ListRelationsReq :=
  { nspace := "document", objectId := "readme", relation := "viewer"
    subjectNamespace := "team", subjectObjectId := "eng"
    page := 1, pageSize := 10 }

/-- A repository whose store round-trips all fail, exercising the
internal-error paths (the gorm `error` returns). -/
def failRepo : ITupleRepo Unit where
  findByTuple := fun _ _ _ _ _ _ _ => .error "store unavailable"
  create := fun _ _ => .error "store unavailable"
  deleteByTuple := fun _ _ _ _ _ _ _ => .error "store unavailable"
  checkPermission := fun _ _ _ _ _ _ _ => .error "store unavailable"
  listWithFilters := fun _ _ _ _ => .error "store unavailable"

/-- The system-scoped admin role used by the role-service scenarios. -/
def roleAdmin : Role :=
  { id := "r1", code := "admin", name := "Admin", description := ""
    isActive := true, projectId := none
    permissions := ["users.view", "users.delete"] }

/-- A role scoped to the system sentinel project. -/
def roleSystem : Role :=
  { id := "r2", code := "root", name := "Root", description := ""
    isActive := true, projectId := some "system", permissions := ["users.view"] }

/-- The role store for the permission-aggregation scenario of the spec:
user U holds the admin role with a null project scope. -/
def dbUserAdmin : RoleDB :=
  { users := [{ id := "U" }]
    roles := [roleAdmin]
    userRoles := [{ id := "a1", userId := "U", roleId := "r1", projectId := none }] }

/-! ## Helper lemmas -/

/-- Validation passes exactly when every required field is nonempty and the
expiry, when set, is not strictly in the past. -/
theorem validate_eq_none_iff (now : Nat) (req : GrantRelationReq) :
    validateRelationRequest now req = none ↔
      (req.nspace ≠ "" ∧ req.objectId ≠ "" ∧ req.relation ≠ "" ∧
       req.subjectNamespace ≠ "" ∧ req.subjectObjectId ≠ "" ∧
       ∀ e, req.expiresAt = some e → now ≤ e) := by
  unfold validateRelationRequest
  rcases he : req.expiresAt with _ | e <;>
    split_ifs with h1 h2 h3 h4 h5 <;>
      simp_all

/-! ## Claim C1 -/

/-- Claim C1: contrary to the claim, CheckRelation never stores the computed
decision in the cache. On the concrete miss input below the decision is
computed from the store (allowed = true) while the cache comes back exactly
as it went in — still empty — so the repeated Check meets the miss signal
again instead of being served from the cache. -/
theorem c1_check_does_not_populate_cache :
    checkRelation dbTupleRepo (memCache Bool) 100 [tupleAlice]
        ([] : CacheState Bool) checkReqAlice
      = .ok ({ allowed := true, reason := "" }, ([] : CacheState Bool))
    ∧ (memCache Bool).get ([] : CacheState Bool) (checkCacheKey checkReqAlice)
      = .error .cacheNil :=
  ⟨rfl, rfl⟩

/-! ## Claim C4 -/

/-- Claim C4: contrary to the claim, GetUserPermissions on a cache miss
returns an empty permission map even when the user holds a role with
permission codes, because FindByUserID loads the assignment rows without
preloading the Role association, so every loaded assignment carries the
zero-valued role. The spec example (admin role with users.view and
users.delete, unscoped assignment) yields the empty map, which is then
cached. -/
theorem c4_user_permissions_empty :
    getUserPermissions (memCache UserPermissions) dbUserAdmin
        ([] : CacheState UserPermissions) "U"
      = ([], none, [("user_permissions:U", [], cacheDefaultTTL)])
    ∧ (getUserPermissions (memCache UserPermissions) dbUserAdmin
        ([] : CacheState UserPermissions) "U").1
      ≠ [("system/users.view", true), ("system/users.delete", true)] :=
  ⟨rfl, by decide⟩

/-! ## Claim C7 -/

/-- Claim C7 counterexample: a grant request whose expiry equals the current
time is accepted by validation — `Before` is strict — and the grant goes
through to the store, contradicting the claim that expiresAt equal to the
current time is rejected. -/
theorem c7_counterexample :
    validateRelationRequest 100 { grantReqAlice with expiresAt := some 100 } = none
    ∧ grantRelation dbTupleRepo 100 []
        { grantReqAlice with expiresAt := some 100 }
      = .ok (tupleOfGrantReq { grantReqAlice with expiresAt := some 100 },
             [tupleOfGrantReq { grantReqAlice with expiresAt := some 100 }]) :=
  ⟨rfl, rfl⟩

/-- Claim C7 amended: validation passes iff the five required fields are
nonempty and the expiry, when set, is not strictly before now (equality with
now is accepted); when validation fails, GrantRelation returns the
invalid-permission error for every store — no store access happens and the
store is unchanged. -/
theorem c7_validation_before_store (now : Nat) (req : GrantRelationReq) :
    (validateRelationRequest now req = none ↔
      (req.nspace ≠ "" ∧ req.objectId ≠ "" ∧ req.relation ≠ "" ∧
       req.subjectNamespace ≠ "" ∧ req.subjectObjectId ≠ "" ∧
       ∀ e, req.expiresAt = some e → now ≤ e))
    ∧ (validateRelationRequest now req ≠ none →
        ∀ db : List RelationTuple,
          grantRelation dbTupleRepo now db req = .error (errWrap .errInvalidPermission)) := by
  refine ⟨validate_eq_none_iff now req, fun hv db => ?_⟩
  unfold grantRelation
  cases h : validateRelationRequest now req with
  | none => exact absurd h hv
  | some m => rfl

/-- Claim C7 witness: a request with an empty namespace fails validation and
GrantRelation rejects it with the invalid-permission error on a nonempty
store. -/
theorem c7_witness :
    grantRelation dbTupleRepo 0 [tupleAlice] { grantReqAlice with nspace := "" }
      = .error (errWrap .errInvalidPermission) :=
  (c7_validation_before_store 0 { grantReqAlice with nspace := "" }).2
    (by decide) [tupleAlice]

/-! ## Claim C9 -/

/-- Claim C9: when the cache misses and the write-back of the computed
permission map fails, GetUserPermissions returns the internal error together
with the empty permission map and the untouched cache — the computed
permissions are discarded. -/
theorem c9_cache_write_failure {κ : Type} (c : ICache UserPermissions κ)
    (db : RoleDB) (cst : κ) (userID : String) (e : CacheErr)
    (hmiss : c.get cst (userPermissionsCacheKey userID) = .error .cacheNil)
    (hfail : c.set cst (userPermissionsCacheKey userID)
        (collectPermissions (findByUserID db userID)) cacheDefaultTTL = .error e) :
    getUserPermissions c db cst userID = ([], some (errWrap .errInternal), cst) := by
  unfold getUserPermissions
  simp only [hmiss, hfail]

/-- Claim C9 witness: against the cache instance whose writes fail, a miss
on user U yields the internal error and the empty map. -/
theorem c9_witness :
    getUserPermissions (failSetCache UserPermissions) dbUserAdmin
        ([] : CacheState UserPermissions) "U"
      = ([], some (errWrap .errInternal), ([] : CacheState UserPermissions)) :=
  c9_cache_write_failure (failSetCache UserPermissions) dbUserAdmin [] "U"
    .ioFailure rfl rfl

/-! ## Claim C2 -/

/-- Claim C2 counterexample: with an expired row ordered before a valid row
at the same natural key, the natural-key lookup returns only the first
(expired) row, so GrantRelation succeeds although a tuple that is active and
non-expired exists at that key — the claimed equivalence fails in the
conflict direction. -/
theorem c2_counterexample :
    grantRelation dbTupleRepo 10 [tupleAliceExpired, tupleAlice] grantReqAlice
      = .ok (tupleOfGrantReq grantReqAlice,
             [tupleAliceExpired, tupleAlice, tupleOfGrantReq grantReqAlice])
    ∧ tupleAlice.isValid 10 = true
    ∧ matchesTupleKey "document" "readme" "viewer" "user" "alice" "" tupleAlice = true :=
  ⟨rfl, rfl, rfl⟩

/-- Claim C2 amended: for a valid grant request, GrantRelation conflicts
exactly when the tuple the natural-key lookup returns — the first stored row
at that key — is active and non-expired; otherwise (no row, or the found row
invalid or expired) it inserts a new active row built from the request and
returns it. This coincides with the claim whenever the store holds at most
one row per natural key. -/
theorem c2_grant_conflict_iff (db : List RelationTuple) (now : Nat)
    (req : GrantRelationReq)
    (hv : validateRelationRequest now req = none) :
    (resultCode (grantRelation dbTupleRepo now db req) = some .errPermissionConflict ↔
      ∃ t, dbFindByTuple db req.nspace req.objectId req.relation
          req.subjectNamespace req.subjectObjectId req.subjectRelation = some t
        ∧ t.isValid now = true)
    ∧ (∀ t, dbFindByTuple db req.nspace req.objectId req.relation
          req.subjectNamespace req.subjectObjectId req.subjectRelation = some t →
        t.isValid now = false →
        grantRelation dbTupleRepo now db req
          = .ok (tupleOfGrantReq req, db ++ [tupleOfGrantReq req]))
    ∧ (dbFindByTuple db req.nspace req.objectId req.relation
          req.subjectNamespace req.subjectObjectId req.subjectRelation = none →
        grantRelation dbTupleRepo now db req
          = .ok (tupleOfGrantReq req, db ++ [tupleOfGrantReq req])) := by
  unfold grantRelation
  rw [hv]
  simp only [dbTupleRepo]
  cases hf : dbFindByTuple db req.nspace req.objectId req.relation
      req.subjectNamespace req.subjectObjectId req.subjectRelation with
  | none => simp [resultCode]
  | some t =>
    cases hval : t.isValid now <;>
      simp [resultCode, errNew, hval]

/-- Claim C2 witness: granting the key of an already-present valid tuple
yields the permission-conflict code. -/
theorem c2_witness :
    resultCode (grantRelation dbTupleRepo 10 [tupleAlice] grantReqAlice)
      = some .errPermissionConflict :=
  ((c2_grant_conflict_iff [tupleAlice] 10 grantReqAlice rfl).1).mpr
    ⟨tupleAlice, rfl, rfl⟩

/-! ## Claim C10 -/

/-- Claim C10 counterexample: granting over a store whose first row at the
key is expired but whose second row is still valid succeeds and leaves TWO
valid rows at the natural key, only one of which was newly inserted — the
claimed "at most the newly inserted one is valid at grant time" fails. -/
theorem c10_counterexample :
    grantRelation dbTupleRepo 10 [tupleAliceExpired, tupleAlice] grantReqAlice
      = .ok (tupleOfGrantReq grantReqAlice,
             [tupleAliceExpired, tupleAlice, tupleOfGrantReq grantReqAlice])
    ∧ tupleAliceExpired.isValid 10 = false
    ∧ ([tupleAliceExpired, tupleAlice, tupleOfGrantReq grantReqAlice].filter
        (fun u => matchesTupleKey "document" "readme" "viewer" "user" "alice" "" u
          && u.isValid 10)).length = 2 :=
  ⟨rfl, rfl, rfl⟩

/-- Claim C10 amended: when GrantRelation succeeds over an
existing-but-invalid found tuple, it appends a new active row and touches no
existing row — the stale row remains in the store unchanged and the new row
is valid at grant time; and when every pre-existing row at that natural key
is invalid, the newly inserted row is the only valid row at the key. -/
theorem c10_grant_preserves_rows (db : List RelationTuple) (now : Nat)
    (req : GrantRelationReq) (t : RelationTuple)
    (hv : validateRelationRequest now req = none)
    (hf : dbFindByTuple db req.nspace req.objectId req.relation
        req.subjectNamespace req.subjectObjectId req.subjectRelation = some t)
    (hinv : t.isValid now = false) :
    grantRelation dbTupleRepo now db req
      = .ok (tupleOfGrantReq req, db ++ [tupleOfGrantReq req])
    ∧ t ∈ db ++ [tupleOfGrantReq req]
    ∧ (tupleOfGrantReq req).isValid now = true
    ∧ ((∀ u ∈ db, matchesTupleKey req.nspace req.objectId req.relation
          req.subjectNamespace req.subjectObjectId req.subjectRelation u = true →
          u.isValid now = false) →
        ∀ u ∈ db ++ [tupleOfGrantReq req],
          matchesTupleKey req.nspace req.objectId req.relation
            req.subjectNamespace req.subjectObjectId req.subjectRelation u = true →
          u.isValid now = true → u = tupleOfGrantReq req) := by
  refine ⟨?_, ?_, ?_, ?_⟩
  · unfold grantRelation
    rw [hv]
    simp only [dbTupleRepo]
    rw [hf]
    simp [hinv]
  · exact List.mem_append_left _ (List.mem_of_find?_eq_some hf)
  · have h6 := ((validate_eq_none_iff now req).mp hv).2.2.2.2.2
    cases he : req.expiresAt with
    | none =>
      simp [tupleOfGrantReq, RelationTuple.isValid, RelationTuple.isExpired, he]
    | some e =>
      have hle := Nat.not_lt.mpr (h6 e he)
      simp [tupleOfGrantReq, RelationTuple.isValid, RelationTuple.isExpired, he, hle]
  · intro hall u hu hmatch hvalid
    rcases List.mem_append.mp hu with hin | hnew
    · exact absurd hvalid (by simp [hall u hin hmatch])
    · simpa using hnew

/-- Claim C10 witness: granting over a single inactive row at the key
appends the new active row, keeps the inactive row untouched, and the new
row is the only valid row at the key. -/
theorem c10_witness :
    grantRelation dbTupleRepo 0 [tupleAliceInactive] grantReqAlice
      = .ok (tupleOfGrantReq grantReqAlice,
             [tupleAliceInactive] ++ [tupleOfGrantReq grantReqAlice])
    ∧ (∀ u ∈ [tupleAliceInactive] ++ [tupleOfGrantReq grantReqAlice],
        matchesTupleKey grantReqAlice.nspace grantReqAlice.objectId
          grantReqAlice.relation grantReqAlice.subjectNamespace
          grantReqAlice.subjectObjectId grantReqAlice.subjectRelation u = true →
        u.isValid 0 = true → u = tupleOfGrantReq grantReqAlice) := by
  have h := c10_grant_preserves_rows [tupleAliceInactive] 0 grantReqAlice
    tupleAliceInactive rfl rfl rfl
  exact ⟨h.1, h.2.2.2 (by decide)⟩

/-! ## Claim C5 -/

/-- Claim C5 counterexample: the store holds a plain grant to team:eng and a
userset grant to team:eng#member on the same object and relation — the same
5-tuple under two different natural keys. Revoking the userset tuple
succeeds and hard-deletes it, yet a subsequent Check of that 5-tuple still
returns allowed = true, because the remaining plain tuple matches: the
claimed allowed = false after a revoke fails. -/
theorem c5_counterexample :
    revokeRelation dbTupleRepo [tupleTeamPlain, tupleTeamMember] revokeReqTeamMember
      = .ok [tupleTeamPlain]
    ∧ checkRelation dbTupleRepo (memCache Bool) 0 [tupleTeamPlain]
        ([] : CacheState Bool) checkReqTeam
      = .ok ({ allowed := true, reason := "" }, ([] : CacheState Bool)) :=
  ⟨rfl, rfl⟩

/-- Claim C5 amended: RevokeRelation returns not-found exactly when no row
matches the natural key; otherwise it hard-deletes every row at that key,
and a subsequent Check of the 5-tuple returns allowed = false provided every
row that would satisfy the check (same 5-tuple, active, non-expired) also
matched the revoked natural key. -/
theorem c5_revoke_semantics (db : List RelationTuple) (req : RevokeRelationReq)
    (now : Nat) :
    (resultCode (revokeRelation dbTupleRepo db req) = some .errPermissionNotFound ↔
      dbFindByTuple db req.nspace req.objectId req.relation
        req.subjectNamespace req.subjectObjectId req.subjectRelation = none)
    ∧ ((dbFindByTuple db req.nspace req.objectId req.relation
          req.subjectNamespace req.subjectObjectId req.subjectRelation).isSome = true →
        revokeRelation dbTupleRepo db req
          = .ok (dbDeleteByTuple db req.nspace req.objectId req.relation
              req.subjectNamespace req.subjectObjectId req.subjectRelation)
        ∧ ((∀ t ∈ db, validCheckMatch now req.nspace req.objectId req.relation
              req.subjectNamespace req.subjectObjectId t = true →
              matchesTupleKey req.nspace req.objectId req.relation
                req.subjectNamespace req.subjectObjectId req.subjectRelation t = true) →
            dbCheckPermission
              (dbDeleteByTuple db req.nspace req.objectId req.relation
                req.subjectNamespace req.subjectObjectId req.subjectRelation) now
              req.nspace req.objectId req.relation
              req.subjectNamespace req.subjectObjectId = false)) := by
  unfold revokeRelation
  simp only [dbTupleRepo]
  cases hf : dbFindByTuple db req.nspace req.objectId req.relation
      req.subjectNamespace req.subjectObjectId req.subjectRelation with
  | none => simp [resultCode, errNew]
  | some t =>
    refine ⟨by simp [resultCode, errNew], fun _ => ⟨rfl, fun hall => ?_⟩⟩
    refine Bool.eq_false_iff.mpr (fun hany => ?_)
    obtain ⟨a, ha, hpa⟩ := List.any_eq_true.mp hany
    obtain ⟨hadb, hnm⟩ := List.mem_filter.mp ha
    have := hall a hadb hpa
    simp [this] at hnm

/-- Claim C5 witness: revoking the single stored tuple deletes it and a
subsequent check of its 5-tuple denies access. -/
theorem c5_witness :
    revokeRelation dbTupleRepo [tupleAlice] revokeReqAlice = .ok []
    ∧ dbCheckPermission
        (dbDeleteByTuple [tupleAlice] revokeReqAlice.nspace revokeReqAlice.objectId
          revokeReqAlice.relation revokeReqAlice.subjectNamespace
          revokeReqAlice.subjectObjectId revokeReqAlice.subjectRelation) 7
        revokeReqAlice.nspace revokeReqAlice.objectId revokeReqAlice.relation
        revokeReqAlice.subjectNamespace revokeReqAlice.subjectObjectId = false := by
  have h := (c5_revoke_semantics [tupleAlice] revokeReqAlice 7).2 rfl
  exact ⟨h.1, h.2 (by decide)⟩

/-! ## Claim C6 -/

/-- Claim C6: over the shipped store, BulkRevoke always succeeds — an item
whose natural key matches no row raises only the swallowed not-found, and
the final store is the initial one minus every row matching some item's
natural key; and against any repository, an item error whose code is not
not-found aborts the batch and is returned. -/
theorem c6_bulk_revoke_batch :
    (∀ (db : List RelationTuple) (reqs : List RevokeRelationReq),
      bulkRevokeRelations dbTupleRepo db reqs
        = .ok (db.filter (fun t => reqs.all (fun r =>
            !(matchesTupleKey r.nspace r.objectId r.relation
              r.subjectNamespace r.subjectObjectId r.subjectRelation t)))))
    ∧ (∀ (σ : Type) (repo : ITupleRepo σ) (st : σ) (req : RevokeRelationReq)
        (rest : List RevokeRelationReq) (e : AppError),
        revokeRelation repo st req = .error e →
        e.code ≠ .errPermissionNotFound →
        bulkRevokeRelations repo st (req :: rest) = .error e) := by
  constructor
  · intro db reqs
    induction reqs generalizing db with
    | nil => simp [bulkRevokeRelations]
    | cons r rest ih =>
      cases hf : dbFindByTuple db r.nspace r.objectId r.relation
          r.subjectNamespace r.subjectObjectId r.subjectRelation with
      | none =>
        have hnone : revokeRelation dbTupleRepo db r
            = .error (errNew .errPermissionNotFound "Relation not found") := by
          unfold revokeRelation
          simp [dbTupleRepo, hf]
        have hstep : bulkRevokeRelations dbTupleRepo db (r :: rest)
            = bulkRevokeRelations dbTupleRepo db rest := by
          simp only [bulkRevokeRelations, hnone]
          rw [if_neg]
          simp [errNew]
        rw [hstep, ih db]
        have hnomatch := List.find?_eq_none.mp hf
        congr 1
        apply List.filter_congr
        intro t ht
        have h1 : matchesTupleKey r.nspace r.objectId r.relation
            r.subjectNamespace r.subjectObjectId r.subjectRelation t = false := by
          have h2 := hnomatch t ht
          simpa using h2
        simp [List.all_cons, h1]
      | some t =>
        have hsome : revokeRelation dbTupleRepo db r
            = .ok (dbDeleteByTuple db r.nspace r.objectId r.relation
                r.subjectNamespace r.subjectObjectId r.subjectRelation) := by
          unfold revokeRelation
          simp [dbTupleRepo, hf]
        have hstep : bulkRevokeRelations dbTupleRepo db (r :: rest)
            = bulkRevokeRelations dbTupleRepo
                (dbDeleteByTuple db r.nspace r.objectId r.relation
                  r.subjectNamespace r.subjectObjectId r.subjectRelation) rest := by
          simp only [bulkRevokeRelations, hsome]
        rw [hstep, ih]
        unfold dbDeleteByTuple
        rw [List.filter_filter]
        congr 1
        apply List.filter_congr
        intro u _
        simp [List.all_cons, Bool.and_comm]
  · intro σ repo st req rest e hrev hcode
    simp only [bulkRevokeRelations, hrev]
    rw [if_pos hcode]

/-- Claim C6 witness: a batch containing an absent item and a present item
succeeds, deleting exactly the present one; and a batch against a failing
repository aborts with the internal error of its first item. -/
theorem c6_witness :
    bulkRevokeRelations dbTupleRepo [tupleTeamPlain, tupleTeamMember]
        [revokeReqAlice, revokeReqTeamMember] = .ok [tupleTeamPlain]
    ∧ bulkRevokeRelations failRepo () [revokeReqAlice]
        = .error (errWrap .errInternal) := by
  constructor
  · have h := c6_bulk_revoke_batch.1 [tupleTeamPlain, tupleTeamMember]
      [revokeReqAlice, revokeReqTeamMember]
    rw [h]
    rfl
  · exact c6_bulk_revoke_batch.2 Unit failRepo () revokeReqAlice []
      (errWrap .errInternal) rfl (by decide)

/-! ## Claim C3 -/

/-- Claim C3: for a non-super-admin caller, UpdateRole, DeleteRole,
AssignRoleToUser and RemoveRoleFromUser return the system-role-protected
error exactly when the role record loaded from the store carries the system
sentinel as its projectId (and, for assignment, the user exists so that
execution reaches the guard). The right-hand sides mention no
request-supplied projectId, so the decision depends only on the stored
role. -/
theorem c3_system_role_guard_from_store (registry : Option (List String))
    (db : RoleDB) (roleID : String) (reqU : UpdateRoleReq)
    (reqA : AssignRoleToUserReq) (reqR : RemoveRoleFromUserReq) :
    (resultCode (updateRole registry db roleID reqU false) = some .errSystemRoleProtected ↔
      ∃ r, roleFindOneById db roleID = some r ∧ r.projectId = some systemProjectID)
    ∧ (resultCode (deleteRole db roleID false) = some .errSystemRoleProtected ↔
      ∃ r, roleFindOneById db roleID = some r ∧ r.projectId = some systemProjectID)
    ∧ (resultCode (assignRoleToUser db reqA false) = some .errSystemRoleProtected ↔
      ((userFindOneById db reqA.userId).isSome = true ∧
        ∃ r, roleFindOneById db reqA.roleId = some r ∧ r.projectId = some systemProjectID))
    ∧ (resultCode (removeRoleFromUser db reqR false) = some .errSystemRoleProtected ↔
      ∃ r, roleFindOneById db reqR.roleId = some r ∧ r.projectId = some systemProjectID) := by
  refine ⟨?_, ?_, ?_, ?_⟩
  · cases hr : roleFindOneById db roleID with
    | none => simp [updateRole, hr, resultCode, errNew]
    | some r =>
      by_cases hp : r.projectId = some systemProjectID
      · simp [updateRole, hr, hp, resultCode, errNew]
      · cases hv : registryValidateCodes registry reqU.permissions <;>
          simp [updateRole, hr, hp, hv, resultCode, errNew]
  · cases hr : roleFindOneById db roleID with
    | none => simp [deleteRole, hr, resultCode, errNew]
    | some r =>
      by_cases hp : r.projectId = some systemProjectID <;>
        simp [deleteRole, hr, hp, resultCode, errNew]
  · cases hu : userFindOneById db reqA.userId with
    | none => simp [assignRoleToUser, hu, resultCode, errNew]
    | some u =>
      cases hr : roleFindOneById db reqA.roleId with
      | none => simp [assignRoleToUser, hu, hr, resultCode, errNew]
      | some r =>
        by_cases hp : r.projectId = some systemProjectID
        · simp [assignRoleToUser, hu, hr, hp, resultCode, errNew]
        · cases hex : findByUserIDAndRoleID db reqA.userId reqA.roleId reqA.projectId <;>
            simp [assignRoleToUser, hu, hr, hp, hex, resultCode, errNew, userRoleCreate]
  · cases hr : roleFindOneById db reqR.roleId with
    | none => simp [removeRoleFromUser, hr, resultCode, errNew]
    | some r =>
      by_cases hp : r.projectId = some systemProjectID
      · simp [removeRoleFromUser, hr, hp, resultCode, errNew]
      · cases hex : findByUserIDAndRoleID db reqR.userId reqR.roleId reqR.projectId <;>
          simp [removeRoleFromUser, hr, hp, hex, resultCode, errNew]

/-! ## Claim C8 -/

theorem filterClause_namespace (v : String) (t : RelationTuple) :
    filterClause "namespace" v t = (if v = "" then true else t.nspace = v) := rfl

theorem filterClause_objectId (v : String) (t : RelationTuple) :
    filterClause "object_id" v t = (if v = "" then true else t.objectId = v) := rfl

theorem filterClause_relation (v : String) (t : RelationTuple) :
    filterClause "relation" v t = (if v = "" then true else t.relation = v) := rfl

theorem filterClause_subjectNamespace (v : String) (t : RelationTuple) :
    filterClause "subject_namespace" v t
      = (if v = "" then true else t.subjectNamespace = v) := rfl

theorem filterClause_subjectObjectId (v : String) (t : RelationTuple) :
    filterClause "subject_object_id" v t
      = (if v = "" then true else t.subjectObjectId = v) := rfl

/-- The dynamic filter map the service builds agrees pointwise with the
five-column filter predicate: empty fields are no constraint, nonempty
fields equality constraints. -/
theorem buildFilters_pointwise (req : ListRelationsReq) (t : RelationTuple) :
    matchesFilters (buildRelationFilters req) t = matchesListReq req t := by
  unfold matchesFilters buildRelationFilters matchesListReq
  by_cases h1 : req.nspace = "" <;> by_cases h2 : req.objectId = "" <;>
    by_cases h3 : req.relation = "" <;> by_cases h4 : req.subjectNamespace = "" <;>
      by_cases h5 : req.subjectObjectId = "" <;>
        simp [h1, h2, h3, h4, h5, filterClause_namespace, filterClause_objectId,
          filterClause_relation, filterClause_subjectNamespace,
          filterClause_subjectObjectId, Bool.and_assoc]

/-- Claim C8 counterexample: even the request with every filter field set
constrains exactly the five columns namespace, object_id, relation,
subject_namespace and subject_object_id — subject_relation is not among
them, and two tuples differing only in subjectRelation are indistinguishable
by any filter the request type can express, so List does not filter over
"any subset of the six tuple key columns". -/
theorem c8_counterexample :
    (buildRelationFilters listReqFull).map Prod.fst
      = ["namespace", "object_id", "relation", "subject_namespace", "subject_object_id"]
    ∧ ¬ ("subject_relation" ∈ (buildRelationFilters listReqFull).map Prod.fst)
    ∧ matchesFilters (buildRelationFilters listReqFull) tupleTeamPlain = true
    ∧ matchesFilters (buildRelationFilters listReqFull) tupleTeamMember = true :=
  ⟨rfl, by decide, rfl, rfl⟩

/-- Claim C8 amended: ListRelations filters over any subset of the FIVE
columns namespace, objectId, relation, subjectNamespace and subjectObjectId
(an empty field is no constraint; subjectRelation is not filterable), and
clamps the page size to 10 when the requested size is non-positive and to
100 when it exceeds 100, with the page floored at 1. -/
theorem c8_list_filters_and_clamps (db : List RelationTuple) (req : ListRelationsReq) :
    listRelations dbTupleRepo db req
      = .ok { items := ((db.filter (matchesListReq req)).drop
                  (((clampedPage req - 1) * clampedPageSize req).toNat)).take
                  ((clampedPageSize req).toNat)
              total := ((db.filter (matchesListReq req)).length : Int)
              page := clampedPage req
              pageSize := clampedPageSize req
              hasNext := decide ((clampedPage req - 1) * clampedPageSize req
                + clampedPageSize req
                < ((db.filter (matchesListReq req)).length : Int)) } := by
  have hoff : ¬ ((clampedPage req - 1) * clampedPageSize req < 0) := by
    have h1 : 1 ≤ clampedPage req := by
      unfold clampedPage
      split <;> omega
    have h2 : 1 ≤ clampedPageSize req := by
      unfold clampedPageSize
      split_ifs <;> omega
    have h3 := mul_nonneg (by omega : (0 : Int) ≤ clampedPage req - 1)
      (by omega : (0 : Int) ≤ clampedPageSize req)
    omega
  have hfil : db.filter (matchesFilters (buildRelationFilters req))
      = db.filter (matchesListReq req) :=
    List.filter_congr (fun t _ => buildFilters_pointwise req t)
  have hbase : listRelations dbTupleRepo db req
      = .ok { items := ((db.filter (matchesFilters (buildRelationFilters req))).drop
                  ((if (clampedPage req - 1) * clampedPageSize req < 0 then 0
                    else (clampedPage req - 1) * clampedPageSize req)).toNat).take
                  ((clampedPageSize req).toNat)
              total := ((db.filter (matchesFilters (buildRelationFilters req))).length : Int)
              page := clampedPage req
              pageSize := clampedPageSize req
              hasNext := decide ((if (clampedPage req - 1) * clampedPageSize req < 0 then 0
                  else (clampedPage req - 1) * clampedPageSize req)
                + clampedPageSize req
                < ((db.filter (matchesFilters (buildRelationFilters req))).length : Int)) } := rfl
  rw [hbase]
  simp only [if_neg hoff, hfil]

end DreonAuth
